import Mathlib

/-!
Shallow embedding of the NSH shell-interaction driver (`autonx.py`):
the vt100 escape-sequence filter, UTF-8 decoding of captured bytes,
output demarcation, exit-status inference, the command executor `_run`,
and the activation sequence `_await_prompt` / `on_activate`.

Text is modelled as `List Char`, raw transport bytes as `List Nat`.
The transport is modelled as a script: a list of `expect` outcomes
consumed in order; every transport interaction (`sendline`, `expect`)
is recorded in an event trace.
-/

namespace Autonx

/-- The ESC byte 0x1b. -/
def escChar : Char := Char.ofNat 0x1b

/-- The CSI byte 0x9b. -/
def csiChar : Char := Char.ofNat 0x9b

/-- Membership in the character class of the regex, written there as the
range from the at sign to the underscore together with the lowercase
letters: code points 0x40-0x5F and 0x61-0x7A.  These are the bytes that
terminate a control sequence. -/
def isFinal (c : Char) : Bool :=
  (0x40 ≤ c.toNat && c.toNat ≤ 0x5F) || (0x61 ≤ c.toNat && c.toNat ≤ 0x7A)

/-- Greedy scan of the parameter part of a control sequence: skip bytes
outside the final class, then consume one final byte and return the
remainder.  Returns `none` when no final byte occurs (the regex branch
fails). -/
def skipParams : List Char → Option (List Char)
  | [] => none
  | c :: rest => if isFinal c then some rest else skipParams rest

/-- Leftmost match of the regex
`(ESC lbracket | CSI) [^finals]* [final] | ESC [final]`
at the head of the string, returning the remainder after the match.
When the first branch sees `ESC lbracket` but finds no final byte, the
second branch still matches `ESC lbracket` itself, because the left
bracket lies in the final class. -/
def escMatch (s : List Char) : Option (List Char) :=
  match s with
  | [] => none
  | c :: rest =>
    if c = escChar then
      match rest with
      | [] => none
      | d :: rest2 =>
        if d = '[' then
          match skipParams rest2 with
          | some r => some r
          | none => some rest2
        else if isFinal d then some rest2
        else none
    else if c = csiChar then skipParams rest
    else none

/-- One pass of `re.sub(pattern, empty, s, count)` for the vt100 regex:
scan left to right; at a match, delete it and continue after it,
spending one unit of the substitution budget; otherwise keep the
character.  `fuel` bounds the recursion; every step consumes at least
one character, so `fuel = s.length` suffices.  The budget `count` is
always 1000000 at the call sites of the source (the Python meaning of a
zero count, replace all, is never used there). -/
def subEscAux : Nat → Nat → List Char → List Char
  | 0, _, s => s
  | _ + 1, 0, s => s
  | f + 1, count + 1, s =>
    match s with
    | [] => []
    | c :: rest =>
      match escMatch (c :: rest) with
      | some r => subEscAux f count r
      | none => c :: subEscAux f (count + 1) rest

/-- The escape-sequence filter of the driver:
`re_vt100.sub(empty, s, count=1000000)`. -/
def filterVt100 (s : List Char) : List Char :=
  subEscAux s.length 1000000 s

/-- True when a character is neither the ESC byte nor the CSI byte. -/
def noEscChar (c : Char) : Bool :=
  !(c == escChar || c == csiChar)

/-- True when a string contains neither the ESC byte nor the CSI byte. -/
def escFree (s : List Char) : Bool :=
  s.all noEscChar

/-- True for a UTF-8 continuation byte, 0x80-0xBF. -/
def isCont (b : Nat) : Bool :=
  0x80 ≤ b && b ≤ 0xBF

/-- Strict UTF-8 decoding of a byte sequence, as performed by
`bytes.decode` with the utf-8 codec and strict error policy: rejects
overlong encodings, surrogates and code points above 0x10FFFF;
`none` models the decode error. -/
def utf8Decode : List Nat → Option (List Char)
  | [] => some []
  | b :: rest =>
    if b < 0x80 then
      (utf8Decode rest).map (fun cs => Char.ofNat b :: cs)
    else if 0xC2 ≤ b && b ≤ 0xDF then
      match rest with
      | b2 :: rest2 =>
        if isCont b2 then
          (utf8Decode rest2).map (fun cs =>
            Char.ofNat ((b - 0xC0) * 0x40 + (b2 - 0x80)) :: cs)
        else none
      | [] => none
    else if 0xE0 ≤ b && b ≤ 0xEF then
      match rest with
      | b2 :: b3 :: rest3 =>
        let lo2 := if b = 0xE0 then 0xA0 else 0x80
        let hi2 := if b = 0xED then 0x9F else 0xBF
        if (lo2 ≤ b2 && b2 ≤ hi2) && isCont b3 then
          (utf8Decode rest3).map (fun cs =>
            Char.ofNat ((b - 0xE0) * 0x1000 + (b2 - 0x80) * 0x40 + (b3 - 0x80)) :: cs)
        else none
      | _ => none
    else if 0xF0 ≤ b && b ≤ 0xF4 then
      match rest with
      | b2 :: b3 :: b4 :: rest4 =>
        let lo2 := if b = 0xF0 then 0x90 else 0x80
        let hi2 := if b = 0xF4 then 0x8F else 0xBF
        if (lo2 ≤ b2 && b2 ≤ hi2) && isCont b3 && isCont b4 then
          (utf8Decode rest4).map (fun cs =>
            Char.ofNat ((b - 0xF0) * 0x40000 + (b2 - 0x80) * 0x1000 +
              (b3 - 0x80) * 0x40 + (b4 - 0x80)) :: cs)
        else none
      | _ => none
    else none

/-- Removal of every carriage return: `str.replace` of the one-character
string CR by the empty string. -/
def stripCR (s : List Char) : List Char :=
  s.filter (fun c => c ≠ '\r')

/-- Splitting on the newline separator, Python `str.split` with an
explicit one-character separator: no collapsing of empty fields, and the
empty string yields one empty field. -/
def splitNL : List Char → List (List Char)
  | [] => [[]]
  | c :: rest =>
    if c = '\n' then [] :: splitNL rest
    else
      match splitNL rest with
      | [] => [[c]]
      | l :: ls => (c :: l) :: ls

/-- The demarcation pipeline applied to captured text in `_run`: filter
escape sequences, drop carriage returns, split into lines. -/
def demarc (text : List Char) : List (List Char) :=
  splitNL (stripCR (filterVt100 text))

/-- The slice from index one to the last index exclusive, Python
`data[1:-1]`: drop the first element and the last element. -/
def dropFirstLast {α : Type} (l : List α) : List α :=
  (l.drop 1).dropLast

/-- The element at index minus two, Python `l[-2]`: the second-to-last
element when the list has at least two elements, and the IndexError
(here `none`) otherwise. -/
def getNeg2 {α : Type} (l : List α) : Option α :=
  if 2 ≤ l.length then l.get? (l.length - 2) else none

/-- Whitespace in the sense of `int`-parsing in Python, restricted to
the ASCII whitespace characters that can occur here. -/
def isPySpace (c : Char) : Bool :=
  c = ' ' || c = '\t' || c = '\n' || c = '\r' ||
    c = Char.ofNat 0x0b || c = Char.ofNat 0x0c

/-- ASCII decimal digit test. -/
def isAsciiDigit (c : Char) : Bool :=
  0x30 ≤ c.toNat && c.toNat ≤ 0x39

/-- Numeric value of an ASCII digit. -/
def digitVal (c : Char) : Nat :=
  c.toNat - 0x30

/-- Digits after the first one, allowing a single underscore between two
digits as Python `int` does; `none` on any other character. -/
def digitsAfter (acc : Nat) : List Char → Option Nat
  | [] => some acc
  | c :: rest =>
    if c = '_' then
      match rest with
      | d :: rest2 =>
        if isAsciiDigit d then digitsAfter (acc * 10 + digitVal d) rest2 else none
      | [] => none
    else if isAsciiDigit c then digitsAfter (acc * 10 + digitVal c) rest
    else none

/-- A nonempty ASCII digit sequence with optional single underscores
between digits. -/
def parseDigits : List Char → Option Nat
  | [] => none
  | c :: rest => if isAsciiDigit c then digitsAfter (digitVal c) rest else none

/-- Python `int(s)` on the ASCII strings reachable here: strip
whitespace on both ends, optional sign, then a digit sequence; `none`
models the ValueError. -/
def pyInt (s : List Char) : Option Int :=
  match (((s.dropWhile isPySpace).reverse.dropWhile isPySpace).reverse) with
  | '+' :: rest => (parseDigits rest).map (fun n => (n : Int))
  | '-' :: rest => (parseDigits rest).map (fun n => -(n : Int))
  | rest => (parseDigits rest).map (fun n => (n : Int))

/-- Scan for a colon-space occurrence with no newline before it, the
tail of the anchored regex `nsh: .*: ` where the dot does not match a
newline. -/
def hasColonSpace : List Char → Bool
  | [] => false
  | c :: rest =>
    match rest with
    | ' ' :: _ =>
      if c = ':' then true
      else if c = '\n' then false
      else hasColonSpace rest
    | _ =>
      if c = '\n' then false
      else hasColonSpace rest

/-- The shell-error marker test `r_not_found.match(line)` for the regex
`nsh: .*: ` anchored at the start of the line. -/
def matchNotFound (s : List Char) : Bool :=
  match s with
  | 'n' :: 's' :: 'h' :: ':' :: ' ' :: rest => hasColonSpace rest
  | _ => false

/-- Outcome of one `expect` call of the scripted transport: a match
whose `before` field holds the raw bytes preceding the prompt match, or
a timeout. -/
inductive ExpectResult
  | matched (before : List Nat)
  | timeout
  deriving DecidableEq

/-- One recorded transport interaction: a `sendline` with its text, or
an `expect` with its pattern and the caller-supplied timeout when one is
given. -/
inductive IOEvent
  | sendline (line : List Char)
  | expect (pat : List Char) (tmo : Option Int)
  deriving DecidableEq

/-- The exceptions that can escape the driver code modelled here: the
transport timeout, and the strict-decode error of the first capture. -/
inductive PyErr
  | timeoutError
  | decodeError
  deriving DecidableEq

/-- Result of one `_run` invocation: the Python `None` returned when the
driver is not ready, a normal command-result triple, or a raised
exception. -/
inductive RunResult
  | notReady
  | ok (res : List (List Char) × List (List Char) × Int)
  | raised (e : PyErr)
  deriving DecidableEq

/-- Consume the next scripted `expect` outcome; an exhausted script
behaves as a transport that never produces the pattern, a timeout. -/
def takeExpect : List ExpectResult → ExpectResult × List ExpectResult
  | [] => (ExpectResult.timeout, [])
  | r :: rest => (r, rest)

/-- The literal command of the second round-trip, `echo $?`. -/
def echoStatusCmd : List Char := "echo $?".toList

/-- Exit-status inference from the second round-trip, the body of the
`try` block after the second `sendline`: decode the captured bytes,
demarcate, take the element at index minus two, parse it as an integer.
Every failure mode inside the block — the timeout of the second
`expect`, a strict-decode error, a missing index, a ValueError of
`int` — is caught by the bare `except` of the source and yields `none`. -/
def inferStatus : ExpectResult → Option Int
  | ExpectResult.timeout => none
  | ExpectResult.matched b =>
    match utf8Decode b with
    | none => none
    | some text =>
      match getNeg2 (demarc text) with
      | none => none
      | some line => pyInt line

/-- The body of `_run` after the readiness check has passed, over a
scripted transport.  Returns the result, the trace of transport
interactions, and the remaining script.  The fallback branch of the
source computes a 255-status candidate `rsp` when the last data line
matches the error marker, but that assignment is dead: the function
returns the status minus one on every inference failure.  The dead
branch is therefore absent here; `matchNotFound` models its test. -/
def runReady (prompt : List Char) (script : List ExpectResult)
    (cmd : List Char) (tmo : Int) (_codec _decodeerrors : List Char) :
    RunResult × List IOEvent × List ExpectResult :=
  match takeExpect script with
  | (ExpectResult.timeout, s1) =>
    (RunResult.raised PyErr.timeoutError,
     [IOEvent.sendline cmd, IOEvent.expect prompt (some tmo)], s1)
  | (ExpectResult.matched b, s1) =>
    match utf8Decode b with
    | none =>
      (RunResult.raised PyErr.decodeError,
       [IOEvent.sendline cmd, IOEvent.expect prompt (some tmo)], s1)
    | some text =>
      match takeExpect s1 with
      | (r2, s2) =>
        (RunResult.ok (dropFirstLast (demarc text), [],
           (inferStatus r2).getD (-1)),
         [IOEvent.sendline cmd, IOEvent.expect prompt (some tmo),
          IOEvent.sendline echoStatusCmd, IOEvent.expect prompt (some tmo)],
         s2)

/-- The full `_run` (and the public `run`, which forwards every argument
to it): return `None` unless the internal status is one, else execute
the ready body.  The `codec` and `decodeerrors` parameters are accepted
and ignored, as in the source. -/
def runCmd (status : Nat) (prompt : List Char) (script : List ExpectResult)
    (cmd : List Char) (tmo : Int) (codec decodeerrors : List Char) :
    RunResult × List IOEvent × List ExpectResult :=
  if status = 1 then runReady prompt script cmd tmo codec decodeerrors
  else (RunResult.notReady, [], script)

/-- Driver configuration fields used by the activation sequence. -/
structure Config where
  loginTimeout : Int
  bootExpression : List Char
  prompt : List Char
  initCommands : List (List Char)

/-- The init-command loop at the end of `_await_prompt`: each command
runs through `_run` with the default arguments while the status is one;
a non-zero or unknown exit status is only logged, but an exception
raised by `_run` propagates and stops the loop. -/
def runInits (cfg : Config) : List (List Char) → List ExpectResult →
    Option PyErr × List IOEvent × List ExpectResult
  | [], script => (none, [], script)
  | c :: cs, script =>
    match runReady cfg.prompt script c 30 "utf-8".toList "strict".toList with
    | (RunResult.raised e, tr, s1) => (some e, tr, s1)
    | (_, tr, s1) =>
      match runInits cfg cs s1 with
      | (e, tr2, s2) => (e, tr ++ tr2, s2)

/-- The synchronization sequence `_await_prompt`: wait for the boot
expression under the login timeout, set the status to one, wait for the
prompt with no caller-supplied timeout, then run the init commands.
Returns the escaping exception if any, the status after the call, the
trace, and the remaining script.  The status assignment happens directly
after the boot-expression match, before the prompt wait. -/
def awaitPrompt (cfg : Config) (script : List ExpectResult) :
    Option PyErr × Nat × List IOEvent × List ExpectResult :=
  match takeExpect script with
  | (ExpectResult.timeout, s1) =>
    (some PyErr.timeoutError, 0,
     [IOEvent.expect cfg.bootExpression (some cfg.loginTimeout)], s1)
  | (ExpectResult.matched _, s1) =>
    match takeExpect s1 with
    | (ExpectResult.timeout, s2) =>
      (some PyErr.timeoutError, 1,
       [IOEvent.expect cfg.bootExpression (some cfg.loginTimeout),
        IOEvent.expect cfg.prompt none], s2)
    | (ExpectResult.matched _, s2) =>
      match runInits cfg cfg.initCommands s2 with
      | (e, tr, s3) =>
        (e, 1,
         [IOEvent.expect cfg.bootExpression (some cfg.loginTimeout),
          IOEvent.expect cfg.prompt none] ++ tr, s3)

/-- The lifecycle hook `on_activate`: run the synchronization sequence
only when the status is zero, else do nothing. -/
def onActivate (cfg : Config) (status : Nat) (script : List ExpectResult) :
    Option PyErr × Nat × List IOEvent × List ExpectResult :=
  if status = 0 then awaitPrompt cfg script
  else (none, status, [], script)

/-- The lifecycle hook `on_deactivate`: reset the status to zero. -/
def onDeactivate (_status : Nat) : Nat := 0

/-- ASCII text as transport bytes, for the concrete scripts. -/
def asciiBytes (s : String) : List Nat :=
  s.toList.map Char.toNat

/-- The default prompt pattern of the driver. -/
def promptNsh : List Char := "nsh> ".toList

/-- The default configuration of the driver: login timeout sixty, the
NuttShell banner regex as the boot expression, the default prompt, no
init commands. -/
def cfgNsh : Config :=
  { loginTimeout := 60
    bootExpression := "NuttShell \\(NSH\\) NuttX".toList
    prompt := promptNsh
    initCommands := [] }

/-- Transport script of the happy-path scenario: the command round-trip
echoes the command, one output line and a trailing line break before
the prompt; the status round-trip echoes `echo $?` and a zero. -/
def scriptEchoOk : List ExpectResult :=
  [ExpectResult.matched (asciiBytes "echo OK\r\nOK\r\n"),
   ExpectResult.matched (asciiBytes "echo $?\r\n0\r\n")]

/-- Transport script of the error-marker scenario: the shell reports a
command-not-found line, and the status round-trip yields non-numeric
content, so the parse fails. -/
def scriptMarker : List ExpectResult :=
  [ExpectResult.matched (asciiBytes "foo\r\nnsh: foo: command not found\r\n"),
   ExpectResult.matched (asciiBytes "echo $?\r\n$?\r\n")]

/-- Transport script where the command round-trip succeeds and the
status round-trip times out. -/
def scriptSecondTimeout : List ExpectResult :=
  [ExpectResult.matched (asciiBytes "echo OK\r\nOK\r\n"), ExpectResult.timeout]

/-- Transport script where the boot expression matches and the
subsequent prompt wait times out. -/
def scriptBootThenTimeout : List ExpectResult :=
  [ExpectResult.matched (asciiBytes "NuttShell (NSH) NuttX"),
   ExpectResult.timeout]

/-- The escape marker at the head of a string rules out a regex match
at that position. -/
theorem escMatch_none_of_noEsc (c : Char) (rest : List Char)
    (h : noEscChar c = true) : escMatch (c :: rest) = none := by
  simp only [noEscChar, Bool.not_eq_true', Bool.or_eq_false_iff, beq_eq_false_iff_ne,
    ne_eq] at h
  simp [escMatch, h.1, h.2]

/-- The substitution scan leaves a string without escape markers
unchanged, for any fuel and any substitution budget. -/
theorem subEscAux_escFree : ∀ (f count : Nat) (s : List Char),
    escFree s = true → subEscAux f count s = s := by
  intro f
  induction f with
  | zero => intro count s _; rfl
  | succ f ih =>
    intro count s h
    cases count with
    | zero => rfl
    | succ count =>
      cases s with
      | nil => rfl
      | cons c rest =>
        have h' : noEscChar c = true ∧ escFree rest = true := by
          simpa [escFree, List.all_cons, Bool.and_eq_true] using h
        simp only [subEscAux, escMatch_none_of_noEsc c rest h'.1]
        exact congrArg (c :: ·) (ih (count + 1) rest h'.2)

/-- The escape-sequence filter is the identity on strings without
escape markers. -/
theorem filterVt100_escFree (s : List Char) (h : escFree s = true) :
    filterVt100 s = s :=
  subEscAux_escFree s.length 1000000 s h

/-- C1: the spec claims that when the echo-status parse fails and the
last line of the original output matches the shell-error marker, the
exit status of the result is 255.  On this exact input the parse fails
and the marker matches, yet the code returns status minus one: the 255
candidate is computed into a variable the function never returns. -/
theorem c1_error_marker_path_returns_minus_one :
    matchNotFound ("nsh: foo: command not found".toList) = true
    ∧ inferStatus (ExpectResult.matched (asciiBytes "echo $?\r\n$?\r\n")) = none
    ∧ runCmd 1 promptNsh scriptMarker ("foo".toList) 30 ("utf-8".toList) ("strict".toList)
      = (RunResult.ok (["nsh: foo: command not found".toList], [], -1),
         [IOEvent.sendline ("foo".toList), IOEvent.expect promptNsh (some 30),
          IOEvent.sendline echoStatusCmd, IOEvent.expect promptNsh (some 30)], []) := by
  decide

/-- C2 counterexample: activation from the inactive state on a script
where the boot expression matches and the prompt wait then times out
aborts with the timeout error, yet leaves the status at one, because
the code sets the status directly after the boot-expression match. -/
theorem c2_prompt_timeout_leaves_ready :
    onActivate cfgNsh 0 scriptBootThenTimeout
      = (some PyErr.timeoutError, 1,
         [IOEvent.expect cfgNsh.bootExpression (some 60),
          IOEvent.expect promptNsh none], []) := by
  decide

/-- C2 amended: a timeout of the boot-expression wait leaves the status
at zero, but once the boot expression has matched the status is already
one, so a timeout of the subsequent prompt wait aborts activation with
the driver left Ready. -/
theorem c2_status_set_after_boot_match :
    (∀ (cfg : Config) (rest : List ExpectResult),
      onActivate cfg 0 (ExpectResult.timeout :: rest)
        = (some PyErr.timeoutError, 0,
           [IOEvent.expect cfg.bootExpression (some cfg.loginTimeout)], rest))
    ∧ (∀ (cfg : Config) (b : List Nat) (rest : List ExpectResult),
      onActivate cfg 0 (ExpectResult.matched b :: ExpectResult.timeout :: rest)
        = (some PyErr.timeoutError, 1,
           [IOEvent.expect cfg.bootExpression (some cfg.loginTimeout),
            IOEvent.expect cfg.prompt none], rest)) := by
  constructor <;> intros <;> rfl

/-- C3 counterexample: on a script whose second round-trip times out,
the timeout raised by the status-inference `expect` is caught by the
bare `except` of the source and the call still returns a command
result, so not every `expect` timeout during `run` propagates. -/
theorem c3_echo_status_timeout_swallowed :
    scriptSecondTimeout.get? 1 = some ExpectResult.timeout
    ∧ runCmd 1 promptNsh scriptSecondTimeout ("echo OK".toList) 30
        ("utf-8".toList) ("strict".toList)
      = (RunResult.ok (["OK".toList], [], -1),
         [IOEvent.sendline ("echo OK".toList), IOEvent.expect promptNsh (some 30),
          IOEvent.sendline echoStatusCmd, IOEvent.expect promptNsh (some 30)], []) := by
  decide

/-- C3 amended: a timeout of the first `expect`, the command
round-trip, propagates to the caller as fatal; a timeout of the second
`expect`, the echo-status round-trip, is caught by the catch-all of the
inference block and only degrades the exit status to minus one. -/
theorem c3_first_timeout_fatal_second_caught :
    (∀ (prompt cmd c d : List Char) (t : Int) (rest : List ExpectResult),
      runCmd 1 prompt (ExpectResult.timeout :: rest) cmd t c d
        = (RunResult.raised PyErr.timeoutError,
           [IOEvent.sendline cmd, IOEvent.expect prompt (some t)], rest))
    ∧ (∀ (prompt cmd c d : List Char) (t : Int) (b : List Nat) (text : List Char)
        (rest : List ExpectResult),
      utf8Decode b = some text →
      runCmd 1 prompt (ExpectResult.matched b :: ExpectResult.timeout :: rest) cmd t c d
        = (RunResult.ok (dropFirstLast (demarc text), [], -1),
           [IOEvent.sendline cmd, IOEvent.expect prompt (some t),
            IOEvent.sendline echoStatusCmd, IOEvent.expect prompt (some t)], rest)) := by
  constructor
  · intros; rfl
  · intro prompt cmd c d t b text rest h
    simp [runCmd, runReady, takeExpect, h, inferStatus, Option.getD]

/-- Witness for the amended C3 theorem at concrete transports. -/
theorem c3_first_timeout_fatal_second_caught_witness :
    runCmd 1 promptNsh [ExpectResult.timeout] ("ls".toList) 30
        ("utf-8".toList) ("strict".toList)
      = (RunResult.raised PyErr.timeoutError,
         [IOEvent.sendline ("ls".toList), IOEvent.expect promptNsh (some 30)], [])
    ∧ runCmd 1 promptNsh
        [ExpectResult.matched (asciiBytes "ls\r\nhello\r\n"), ExpectResult.timeout]
        ("ls".toList) 30 ("utf-8".toList) ("strict".toList)
      = (RunResult.ok (dropFirstLast (demarc ("ls\r\nhello\r\n".toList)), [], -1),
         [IOEvent.sendline ("ls".toList), IOEvent.expect promptNsh (some 30),
          IOEvent.sendline echoStatusCmd, IOEvent.expect promptNsh (some 30)], []) :=
  ⟨c3_first_timeout_fatal_second_caught.1 promptNsh ("ls".toList)
     ("utf-8".toList) ("strict".toList) 30 [],
   c3_first_timeout_fatal_second_caught.2 promptNsh ("ls".toList)
     ("utf-8".toList) ("strict".toList) 30 (asciiBytes "ls\r\nhello\r\n")
     ("ls\r\nhello\r\n".toList) [] (by decide)⟩

/-- C4: a `run` call while the status is not one returns the not-ready
signal `None` immediately, with an empty transport trace, an untouched
script, and no raised error. -/
theorem c4_not_ready_no_io :
    ∀ (status : Nat) (prompt : List Char) (script : List ExpectResult)
      (cmd c d : List Char) (t : Int),
      status ≠ 1 →
      runCmd status prompt script cmd t c d = (RunResult.notReady, [], script) := by
  intro status prompt script cmd c d t h
  simp [runCmd, h]

/-- Witness for the not-ready theorem at status zero. -/
theorem c4_not_ready_no_io_witness :
    runCmd 0 promptNsh scriptEchoOk ("echo OK".toList) 30
        ("utf-8".toList) ("strict".toList)
      = (RunResult.notReady, [], scriptEchoOk) :=
  c4_not_ready_no_io 0 promptNsh scriptEchoOk ("echo OK".toList)
    ("utf-8".toList) ("strict".toList) 30 (by decide)

/-- C5: the end-to-end happy path: in the Ready state with the default
prompt, running `echo OK` against the scripted transport returns
exactly the lines with the echoed command and the trailing blank
dropped, the empty auxiliary list, and exit status zero parsed from the
second-to-last line of the echo-status capture. -/
theorem c5_echo_ok_returns_ok_zero :
    runCmd 1 promptNsh scriptEchoOk ("echo OK".toList) 30
        ("utf-8".toList) ("strict".toList)
      = (RunResult.ok (["OK".toList], [], 0),
         [IOEvent.sendline ("echo OK".toList), IOEvent.expect promptNsh (some 30),
          IOEvent.sendline echoStatusCmd, IOEvent.expect promptNsh (some 30)], []) := by
  decide

/-- C6 counterexample: the escape-sequence filter is not idempotent:
on the string ESC ESC m m one pass removes the inner bare escape and
joins the leading ESC with the trailing m into a new bare escape, which
a second pass removes. -/
theorem c6_filter_not_idempotent :
    filterVt100 (filterVt100 [escChar, escChar, 'm', 'm'])
      ≠ filterVt100 [escChar, escChar, 'm', 'm'] := by
  decide

/-- C6 amended: the filter is idempotent on every input whose filtered
output is free of escape markers; a single pass can otherwise leave a
freshly formed escape sequence behind. -/
theorem c6_filter_idempotent_on_escfree_output :
    ∀ s : List Char, escFree (filterVt100 s) = true →
      filterVt100 (filterVt100 s) = filterVt100 s := by
  intro s h
  exact filterVt100_escFree _ h

/-- Witness for the amended idempotence theorem on a colored string. -/
theorem c6_filter_idempotent_on_escfree_output_witness :
    escFree (filterVt100 ("\x1b[31mHello\x1b[0m".toList)) = true
    ∧ filterVt100 (filterVt100 ("\x1b[31mHello\x1b[0m".toList))
      = filterVt100 ("\x1b[31mHello\x1b[0m".toList) :=
  ⟨by decide, c6_filter_idempotent_on_escfree_output _ (by decide)⟩

/-- C7: the filter is the identity on every string containing neither
the ESC byte nor the CSI byte, and stripping the color codes from the
colored Hello string yields Hello. -/
theorem c7_filter_identity_on_escfree :
    (∀ s : List Char, escFree s = true → filterVt100 s = s)
    ∧ filterVt100 ("\x1b[31mHello\x1b[0m".toList) = "Hello".toList := by
  refine ⟨fun s h => filterVt100_escFree s h, ?_⟩
  decide

/-- Witness for the identity theorem on a plain string. -/
theorem c7_filter_identity_on_escfree_witness :
    escFree ("plain text".toList) = true
    ∧ filterVt100 ("plain text".toList) = "plain text".toList :=
  ⟨by decide, c7_filter_identity_on_escfree.1 _ (by decide)⟩

/-- C8: when the first round-trip succeeds and its capture decodes,
any failure of exit-status inference — the catch-all covers a timeout,
a decode error, a missing second-to-last line and non-numeric
content — never raises: the call returns a command-result triple whose
exit status is the sentinel minus one. -/
theorem c8_inference_failure_degrades :
    ∀ (prompt cmd c d : List Char) (t : Int) (b : List Nat) (text : List Char)
      (r2 : ExpectResult) (rest : List ExpectResult),
      utf8Decode b = some text →
      inferStatus r2 = none →
      runCmd 1 prompt (ExpectResult.matched b :: r2 :: rest) cmd t c d
        = (RunResult.ok (dropFirstLast (demarc text), [], -1),
           [IOEvent.sendline cmd, IOEvent.expect prompt (some t),
            IOEvent.sendline echoStatusCmd, IOEvent.expect prompt (some t)], rest) := by
  intro prompt cmd c d t b text r2 rest h1 h2
  simp [runCmd, runReady, takeExpect, h1, h2]

/-- Witness for the inference-degradation theorem: the echo-status
round-trip yields non-numeric content. -/
theorem c8_inference_failure_degrades_witness :
    utf8Decode (asciiBytes "cat f\r\nhi\r\n") = some ("cat f\r\nhi\r\n".toList)
    ∧ inferStatus (ExpectResult.matched (asciiBytes "echo $?\r\n$?\r\n")) = none
    ∧ runCmd 1 promptNsh
        [ExpectResult.matched (asciiBytes "cat f\r\nhi\r\n"),
         ExpectResult.matched (asciiBytes "echo $?\r\n$?\r\n")]
        ("cat f".toList) 30 ("utf-8".toList) ("strict".toList)
      = (RunResult.ok (dropFirstLast (demarc ("cat f\r\nhi\r\n".toList)), [], -1),
         [IOEvent.sendline ("cat f".toList), IOEvent.expect promptNsh (some 30),
          IOEvent.sendline echoStatusCmd, IOEvent.expect promptNsh (some 30)], []) :=
  ⟨by decide, by decide,
   c8_inference_failure_degrades promptNsh ("cat f".toList)
     ("utf-8".toList) ("strict".toList) 30 (asciiBytes "cat f\r\nhi\r\n")
     ("cat f\r\nhi\r\n".toList)
     (ExpectResult.matched (asciiBytes "echo $?\r\n$?\r\n")) []
     (by decide) (by decide)⟩

/-- C9: activation while the status is already one is a pure no-op: no
error, no status change, no transport interaction, and an untouched
script, so the synchronization sequence and its init commands do not
run again. -/
theorem c9_activate_idempotent_when_ready :
    ∀ (cfg : Config) (script : List ExpectResult),
      onActivate cfg 1 script = (none, 1, [], script) := by
  intro cfg script
  rfl

/-- C10: the codec and decode-error-policy arguments of `run` are
accepted and ignored: two calls differing only in them return the same
result, the same transport trace and the same remaining script; the
capture is decoded as strict UTF-8 unconditionally. -/
theorem c10_codec_args_irrelevant :
    ∀ (status : Nat) (prompt : List Char) (script : List ExpectResult)
      (cmd : List Char) (t : Int) (c1 d1 c2 d2 : List Char),
      runCmd status prompt script cmd t c1 d1
        = runCmd status prompt script cmd t c2 d2 := by
  intros
  rfl

end Autonx
